import Mathlib

/-!
Shallow embedding of the `weather` HTTP proxy (package `weather`,
file `weather/weather.go`) and verification of its specification.

Modelling choices, fixed once for the whole development:

* Decoded JSON values (`map[string]interface{}` trees produced by
  `json.Unmarshal`) are modelled by the inductive tree `JValue`.
  Go maps with string keys are modelled as association lists with
  first-match lookup; the Go code only ever reads maps, never writes
  them, so key order is irrelevant to every function embedded here.
* JSON numbers and geographic coordinates hold `float64` in Go; all
  properties verified here are structural (field extraction, ordering,
  defaulting, output shape), so numbers are modelled as `Int` and the
  `%.0f` rendering of an integral value as decimal notation.
  Correspondingly `strconv.ParseFloat` is modelled by `ParseFloat`,
  a sign-plus-digits parser covering the integral inputs used here.
* The HTTP transport under `makeNWSRequest` is modelled by a stub
  function `fetch : String → UpstreamResult` giving, per URL, either a
  transport-level failure (network error or unreadable body) or a
  status code together with the decoded body (`none` when the body is
  not a JSON object, covering `json.Unmarshal` failure).
* A Go `(string, error)` return is modelled as `String × Option String`
  (`none` = nil error); `fmt.Errorf` results keep their format text.
-/

/-- A decoded JSON value, as produced by `json.Unmarshal` into
`interface{}`: null, boolean, number, string, array or object. -/
inductive JValue where
  | null
  | bool (b : Bool)
  | num (n : Int)
  | str (s : String)
  | arr (elems : List JValue)
  | obj (fields : List (String × JValue))

/-- A decoded JSON object (`map[string]interface{}`). -/
abbrev JObj := List (String × JValue)

/-- Go map indexing `m[key]`: the value when the key is present,
`none` (Go: the nil interface) otherwise. -/
def lookupJ : JObj → String → Option JValue
  | [], _ => none
  | (k, v) :: rest, key => if k = key then some v else lookupJ rest key

/-- Go type assertion `v.(map[string]interface{})`. -/
def JValue.asObj? : JValue → Option JObj
  | .obj fields => some fields
  | _ => none

/-- Go type assertion `v.([]interface{})`. -/
def JValue.asArr? : JValue → Option (List JValue)
  | .arr elems => some elems
  | _ => none

/-- Go type assertion `v.(string)`. -/
def JValue.asStr? : JValue → Option String
  | .str s => some s
  | _ => none

/-- Go type assertion `v.(float64)` (numbers modelled as `Int`). -/
def JValue.asNum? : JValue → Option Int
  | .num n => some n
  | _ => none

/-- Go `s, _ := m[key].(string)`: the string value if the key is
present and holds a string, otherwise the zero value `""`. -/
def strOf (m : JObj) (key : String) : String :=
  ((lookupJ m key).bind JValue.asStr?).getD ""

/-- Go `n, _ := m[key].(float64)`: the numeric value if the key is
present and holds a number, otherwise the zero value `0`. -/
def numOf (m : JObj) (key : String) : Int :=
  ((lookupJ m key).bind JValue.asNum?).getD 0

/-- The `if x == "" { x = dflt }` defaulting pattern of `formatAlert`. -/
def withDefault (s dflt : String) : String :=
  if s = "" then dflt else s

/-- `NWSAPIBase` constant. -/
def NWSAPIBase : String := "https://api.weather.gov"

/-- What the stubbed transport returns for one URL: a transport-level
error (network failure or unreadable body), or a status code with the
decoded JSON object body (`none` when decoding into a map fails). -/
inductive UpstreamResult where
  | transportError (msg : String)
  | response (status : Nat) (decoded : Option JObj)

/-- `makeNWSRequest`: non-200 statuses become the error
`"API request failed with status: <code>"`; transport and decode
failures become errors; otherwise the decoded object is returned. -/
def makeNWSRequest (fetch : String → UpstreamResult) (url : String) :
    Except String JObj :=
  match fetch url with
  | .transportError msg => .error msg
  | .response status decoded =>
    if status ≠ 200 then
      .error ("API request failed with status: " ++ toString status)
    else
      match decoded with
      | none => .error "json unmarshal failure"
      | some m => .ok m

/-- `formatAlert`: renders one alert feature; each of the five fields
falls back to its placeholder when missing, non-string or empty. -/
def formatAlert (feature : JObj) : String :=
  match (lookupJ feature "properties").bind JValue.asObj? with
  | none => "Error: Invalid alert format"
  | some props =>
    let event := withDefault (strOf props "event") "Unknown"
    let areaDesc := withDefault (strOf props "areaDesc") "Unknown"
    let severity := withDefault (strOf props "severity") "Unknown"
    let description :=
      withDefault (strOf props "description") "No description available"
    let instruction :=
      withDefault (strOf props "instruction") "No specific instructions provided"
    "\nEvent: " ++ event ++ "\nArea: " ++ areaDesc ++ "\nSeverity: " ++ severity
      ++ "\nDescription: " ++ description ++ "\nInstructions: " ++ instruction ++ "\n"

/-- The URL `GetAlerts` fetches for a state. -/
def alertsURL (state : String) : String :=
  NWSAPIBase ++ "/alerts/active/area/" ++ state

/-- `GetAlerts`: fetches the state's active alerts and renders them.
The loop `for _, f := range features` appending `formatAlert(feature)`
only for map-shaped elements is the `filterMap`. -/
def GetAlerts (fetch : String → UpstreamResult) (state : String) :
    String × Option String :=
  match makeNWSRequest fetch (alertsURL state) with
  | .error e => ("Unable to fetch alerts.", some e)
  | .ok data =>
    match (lookupJ data "features").bind JValue.asArr? with
    | none => ("No alerts found or invalid response format.", none)
    | some features =>
      if features.isEmpty then
        ("No active alerts for this state.", none)
      else
        (String.intercalate "\n---\n"
          (features.filterMap (fun f => (JValue.asObj? f).map formatAlert)), none)

/-- The loop body of `GetForecast` over one period record: renders
name, temperature (`%.0f°%s`), wind and narrative, with Go zero-value
fallbacks (`""` / `0`) for missing or wrongly typed fields. -/
def formatPeriod (period : JObj) : String :=
  let name := strOf period "name"
  let temperature := numOf period "temperature"
  let temperatureUnit := strOf period "temperatureUnit"
  let windSpeed := strOf period "windSpeed"
  let windDirection := strOf period "windDirection"
  let detailedForecast := strOf period "detailedForecast"
  "\n" ++ name ++ ":\nTemperature: " ++ toString temperature ++ "°"
    ++ temperatureUnit ++ "\nWind: " ++ windSpeed ++ " " ++ windDirection
    ++ "\nForecast: " ++ detailedForecast ++ "\n"

/-- The URL `GetForecast` fetches first (`/points/<lat>,<lon>`). -/
def pointsURL (latitude longitude : Int) : String :=
  NWSAPIBase ++ "/points/" ++ toString latitude ++ "," ++ toString longitude

/-- `GetForecast`: two-stage resolution (point metadata, then the
forecast resource it links to), then one rendered block per map-shaped
period, joined by `"\n---\n"`. -/
def GetForecast (fetch : String → UpstreamResult) (latitude longitude : Int) :
    String × Option String :=
  match makeNWSRequest fetch (pointsURL latitude longitude) with
  | .error e => ("Unable to fetch forecast data for this location.", some e)
  | .ok pointsData =>
    match (lookupJ pointsData "properties").bind JValue.asObj? with
    | none => ("Invalid response format from weather API.", none)
    | some properties =>
      match (lookupJ properties "forecast").bind JValue.asStr? with
      | none => ("Unable to retrieve forecast URL.", none)
      | some forecastURL =>
        match makeNWSRequest fetch forecastURL with
        | .error e => ("Unable to fetch detailed forecast.", some e)
        | .ok forecastData =>
          match (lookupJ forecastData "properties").bind JValue.asObj? with
          | none => ("Invalid forecast data format.", none)
          | some forecastProps =>
            match (lookupJ forecastProps "periods").bind JValue.asArr? with
            | none => ("Invalid forecast periods data.", none)
            | some periods =>
              (String.intercalate "\n---\n"
                (periods.filterMap (fun p => (JValue.asObj? p).map formatPeriod)),
               none)

/-- One decimal digit of `ParseFloat`'s input. -/
def digitVal (c : Char) : Option Nat :=
  if 48 ≤ c.toNat ∧ c.toNat ≤ 57 then some (c.toNat - 48) else none

/-- Accumulating decimal evaluation of `ParseFloat`'s digit run. -/
def digitsValAux (acc : Nat) : List Char → Option Nat
  | [] => some acc
  | c :: cs =>
    match digitVal c with
    | none => none
    | some d => digitsValAux (acc * 10 + d) cs

/-- Model of `strconv.ParseFloat(s, 64)` on the integral inputs this
development uses: an optional minus sign followed by at least one
decimal digit; anything else is a parse error (`none`). -/
def ParseFloat (s : String) : Option Int :=
  match s.toList with
  | [] => none
  | '-' :: [] => none
  | '-' :: c :: cs => (digitsValAux 0 (c :: cs)).map (fun n => -(n : Int))
  | l => (digitsValAux 0 l).map (fun n => (n : Int))

/-- `GeocodingResult`: one Nominatim candidate, coordinates as strings. -/
structure GeocodingResult where
  Lat : String
  Lon : String

/-- The free-text query `GeocodeCity` builds: the city, with
`", <state>"` appended when a state is given. -/
def geoQuery (city state : String) : String :=
  if state = "" then city else city ++ ", " ++ state

/-- `GeocodeCity` from the point where the geocoding response has been
received with status 200 and decoded into `results` (the transport and
decode stages mirror `makeNWSRequest` and are not re-modelled): builds
the query from city and optional state, fails on an empty result list
or an unparsable coordinate, and otherwise parses the first candidate. -/
def GeocodeCity (city state : String) (results : List GeocodingResult) :
    Except String (Int × Int) :=
  let query := geoQuery city state
  match results with
  | [] => .error ("no results found for location: " ++ query)
  | r :: _ =>
    match ParseFloat r.Lat with
    | none => .error ("strconv.ParseFloat: parsing " ++ r.Lat ++ ": invalid syntax")
    | some lat =>
      match ParseFloat r.Lon with
      | none => .error ("strconv.ParseFloat: parsing " ++ r.Lon ++ ": invalid syntax")
      | some lon => .ok (lat, lon)

/-- An HTTP handler's observable result: status code and body text. -/
structure HandlerResult where
  status : Nat
  body : String
deriving DecidableEq

/-- `http.Error(w, msg, code)`: sets the code and writes the message
followed by a newline. -/
def httpError (msg : String) (code : Nat) : HandlerResult :=
  ⟨code, msg ++ "\n"⟩

/-- `HandleForecast` on a request with the given method and `lat` /
`lon` query parameter strings (`""` = parameter absent, matching
`r.URL.Query().Get`). -/
def HandleForecast (fetch : String → UpstreamResult)
    (method latStr lonStr : String) : HandlerResult :=
  if method ≠ "GET" then
    httpError "Method not allowed" 405
  else if latStr = "" ∨ lonStr = "" then
    httpError "Latitude and longitude parameters are required" 400
  else
    match ParseFloat latStr with
    | none => httpError "Invalid latitude value" 400
    | some lat =>
      match ParseFloat lonStr with
      | none => httpError "Invalid longitude value" 400
      | some lon =>
        match GetForecast fetch lat lon with
        | (_, some e) => httpError ("Error fetching forecast: " ++ e) 500
        | (forecast, none) => ⟨200, forecast⟩

/-- Prefix test on character lists (for substring search). -/
def listPrefix : List Char → List Char → Bool
  | [], _ => true
  | _ :: _, [] => false
  | c :: cs, h :: hs => c == h && listPrefix cs hs

/-- Substring search on character lists. -/
def listContains (pat : List Char) : List Char → Bool
  | [] => pat.isEmpty
  | h :: hs => listPrefix pat (h :: hs) || listContains pat hs

/-- `strContains hay pat` holds when `pat` occurs contiguously in `hay`;
this is the formal reading of "the text contains ...". -/
def strContains (hay pat : String) : Bool :=
  listContains pat.toList hay.toList

/-- Test fixture: an upstream that answers every URL with status 200
and the given decoded object. -/
def stubFetch (data : JObj) : String → UpstreamResult :=
  fun _ => .response 200 (some data)

/-- Test fixture: an upstream that answers every URL with HTTP 503. -/
def fetch503 : String → UpstreamResult :=
  fun _ => .response 503 none

/-! ### General lemmas about the string and list helpers -/

theorem listPrefix_self_append (p t : List Char) : listPrefix p (p ++ t) = true := by
  induction p with
  | nil => cases t <;> rfl
  | cons a as ih => simp [listPrefix, ih]

theorem listContains_nil_pat (l : List Char) : listContains [] l = true := by
  cases l <;> simp [listContains, listPrefix, List.isEmpty]

theorem listContains_parts (l pat r : List Char) :
    listContains pat (l ++ (pat ++ r)) = true := by
  induction l with
  | nil =>
    simp only [List.nil_append]
    cases pat with
    | nil => exact listContains_nil_pat r
    | cons p ps =>
      have hpre := listPrefix_self_append (p :: ps) r
      simp only [List.cons_append] at hpre
      simp [listContains, hpre]
  | cons a as ih =>
    simp only [List.cons_append, listContains, Bool.or_eq_true]
    exact Or.inr ih

theorem strContains_parts (l pat r : String) :
    strContains (l ++ pat ++ r) pat = true := by
  have h : (l ++ pat ++ r).toList = l.toList ++ (pat.toList ++ r.toList) := by
    simp [String.toList, String.data_append, List.append_assoc]
  simp only [strContains, h]
  exact listContains_parts l.toList pat.toList r.toList

theorem strContains_of_eq (hay l pat r : String) (h : hay = l ++ pat ++ r) :
    strContains hay pat = true := by
  rw [h]; exact strContains_parts l pat r

/-- Rendering equation for `formatAlert` once the `properties` object
has been extracted. -/
theorem formatAlert_eq (feature props : JObj)
    (h : (lookupJ feature "properties").bind JValue.asObj? = some props) :
    formatAlert feature =
      "\nEvent: " ++ withDefault (strOf props "event") "Unknown"
        ++ "\nArea: " ++ withDefault (strOf props "areaDesc") "Unknown"
        ++ "\nSeverity: " ++ withDefault (strOf props "severity") "Unknown"
        ++ "\nDescription: "
        ++ withDefault (strOf props "description") "No description available"
        ++ "\nInstructions: "
        ++ withDefault (strOf props "instruction") "No specific instructions provided"
        ++ "\n" := by
  unfold formatAlert
  rw [h]

/-- C4: a response without a `features` list yields the fixed
"no alerts found" message with a nil error, and a response whose
`features` list is empty yields exactly the fixed "no active alerts"
string with a nil error. -/
theorem getAlerts_missing_and_empty_features (fetch : String → UpstreamResult)
    (state : String) (data : JObj)
    (hfetch : fetch (alertsURL state) = .response 200 (some data)) :
    ((lookupJ data "features").bind JValue.asArr? = none →
      GetAlerts fetch state = ("No alerts found or invalid response format.", none))
    ∧ (lookupJ data "features" = some (JValue.arr []) →
      GetAlerts fetch state = ("No active alerts for this state.", none)) := by
  constructor
  · intro h
    unfold GetAlerts makeNWSRequest
    rw [hfetch]
    simp [h]
  · intro h
    unfold GetAlerts makeNWSRequest
    rw [hfetch]
    simp [h, JValue.asArr?]

/-- C10: a non-empty `features` list with no map-shaped element makes
`GetAlerts` return the empty string with a nil error — neither the
"no active alerts" message nor an error — because non-map elements are
skipped before joining. -/
theorem getAlerts_skips_non_map_features (fetch : String → UpstreamResult)
    (state : String) (data : JObj) (features : List JValue)
    (hfetch : fetch (alertsURL state) = .response 200 (some data))
    (hfeat : lookupJ data "features" = some (JValue.arr features))
    (hne : features ≠ [])
    (hnm : ∀ f ∈ features, JValue.asObj? f = none) :
    GetAlerts fetch state = ("", none)
    ∧ ("" : String) ≠ "No active alerts for this state." := by
  refine ⟨?_, by decide⟩
  obtain ⟨f, fs, rfl⟩ := List.exists_cons_of_ne_nil hne
  unfold GetAlerts makeNWSRequest
  rw [hfetch]
  have hmap : (f :: fs).filterMap (fun f => (JValue.asObj? f).map formatAlert) = [] := by
    rw [List.filterMap_eq_nil_iff]
    intro a ha
    rw [hnm a ha]
    rfl
  simp [hfeat, JValue.asArr?, hmap]
  rfl

/-- C8: the alerts and forecast pipelines are deterministic functions
of the state / coordinates and the stubbed upstream: two runs against
upstreams that answer identically give byte-identical output. -/
theorem pipelines_deterministic (f1 f2 : String → UpstreamResult)
    (state : String) (latitude longitude : Int)
    (h : ∀ u, f1 u = f2 u) :
    GetAlerts f1 state = GetAlerts f2 state
    ∧ GetForecast f1 latitude longitude = GetForecast f2 latitude longitude := by
  have hf : f1 = f2 := funext h
  subst hf
  exact ⟨rfl, rfl⟩

/-- Witness for C8 at a concrete stubbed upstream, state and
coordinate pair. -/
theorem pipelines_deterministic_witness :
    (∀ u, stubFetch [] u = stubFetch [] u)
    ∧ GetAlerts (stubFetch []) "CA" = GetAlerts (stubFetch []) "CA"
    ∧ GetForecast (stubFetch []) 37 (-122) = GetForecast (stubFetch []) 37 (-122) := by
  refine ⟨fun u => rfl, ?_⟩
  exact pipelines_deterministic (stubFetch []) (stubFetch []) "CA" 37 (-122) (fun u => rfl)

/-- Witness for C10 at a concrete upstream whose `features` list holds
a single string element. -/
theorem getAlerts_skips_non_map_features_witness :
    stubFetch [("features", JValue.arr [JValue.str "x"])] (alertsURL "CA")
      = UpstreamResult.response 200 (some [("features", JValue.arr [JValue.str "x"])])
    ∧ lookupJ [("features", JValue.arr [JValue.str "x"])] "features"
      = some (JValue.arr [JValue.str "x"])
    ∧ [JValue.str "x"] ≠ ([] : List JValue)
    ∧ (∀ f ∈ [JValue.str "x"], JValue.asObj? f = none)
    ∧ GetAlerts (stubFetch [("features", JValue.arr [JValue.str "x"])]) "CA"
      = ("", none) := by
  have hnm : ∀ f ∈ [JValue.str "x"], JValue.asObj? f = none := by
    intro f hf
    rw [List.mem_singleton] at hf
    rw [hf]
    rfl
  refine ⟨rfl, rfl, by simp, hnm, ?_⟩
  exact (getAlerts_skips_non_map_features
    (stubFetch [("features", JValue.arr [JValue.str "x"])]) "CA"
    [("features", JValue.arr [JValue.str "x"])] [JValue.str "x"]
    rfl rfl (by simp) hnm).1

/-- C1 counterexample: with a non-empty `features` list made of two
non-map elements, `GetAlerts` returns the empty string, which cannot be
written as two blocks joined by `"\n---\n"` — so there is not exactly
one block per element of the features list. -/
theorem getAlerts_one_block_per_element_counterexample :
    GetAlerts (stubFetch [("features", JValue.arr [JValue.str "a", JValue.str "b"])]) "CA"
      = ("", none)
    ∧ ¬ ∃ blocks : List String, blocks.length = 2
        ∧ ("" : String) = String.intercalate "\n---\n" blocks := by
  constructor
  · rfl
  · rintro ⟨blocks, hlen, heq⟩
    rcases blocks with _ | ⟨b1, _ | ⟨b2, _ | ⟨b3, rest⟩⟩⟩
    · simp at hlen
    · simp at hlen
    · rw [show String.intercalate "\n---\n" [b1, b2] = b1 ++ "\n---\n" ++ b2 from rfl] at heq
      have h0 : ("" : String).length = (b1 ++ "\n---\n" ++ b2).length := by rw [← heq]
      rw [String.length_append, String.length_append] at h0
      have h5 : ("\n---\n" : String).length = 5 := by decide
      have hz : ("" : String).length = 0 := by decide
      omega
    · simp at hlen

/-- C1 (amended): with a present, non-empty `features` list,
`GetAlerts` returns the blocks of the map-shaped elements, one block
per map-shaped element in list order, joined by `"\n---\n"`, with a nil
error regardless of which fields each feature carries. -/
theorem getAlerts_block_per_map_element (fetch : String → UpstreamResult)
    (state : String) (data : JObj) (features : List JValue)
    (hfetch : fetch (alertsURL state) = .response 200 (some data))
    (hfeat : lookupJ data "features" = some (JValue.arr features))
    (hne : features ≠ []) :
    GetAlerts fetch state =
      (String.intercalate "\n---\n"
        ((features.filterMap JValue.asObj?).map formatAlert), none) := by
  obtain ⟨f, fs, rfl⟩ := List.exists_cons_of_ne_nil hne
  unfold GetAlerts makeNWSRequest
  rw [hfetch]
  simp [hfeat, JValue.asArr?, List.map_filterMap]

/-- Witness for the amended C1 at a features list holding one map
element and one string element. -/
theorem getAlerts_block_per_map_element_witness :
    stubFetch [("features", JValue.arr [JValue.obj [], JValue.str "x"])] (alertsURL "CA")
      = UpstreamResult.response 200
          (some [("features", JValue.arr [JValue.obj [], JValue.str "x"])])
    ∧ lookupJ [("features", JValue.arr [JValue.obj [], JValue.str "x"])] "features"
      = some (JValue.arr [JValue.obj [], JValue.str "x"])
    ∧ [JValue.obj [], JValue.str "x"] ≠ ([] : List JValue)
    ∧ GetAlerts (stubFetch [("features", JValue.arr [JValue.obj [], JValue.str "x"])]) "CA"
      = (String.intercalate "\n---\n"
          (([JValue.obj [], JValue.str "x"].filterMap JValue.asObj?).map formatAlert),
         none) := by
  refine ⟨rfl, rfl, by simp, ?_⟩
  exact getAlerts_block_per_map_element
    (stubFetch [("features", JValue.arr [JValue.obj [], JValue.str "x"])]) "CA"
    [("features", JValue.arr [JValue.obj [], JValue.str "x"])]
    [JValue.obj [], JValue.str "x"] rfl rfl (by simp)

/-- Witness for C4 at a concrete upstream without a `features` key and
one with an empty `features` list. -/
theorem getAlerts_missing_and_empty_features_witness :
    stubFetch [] (alertsURL "CA") = UpstreamResult.response 200 (some [])
    ∧ ((lookupJ ([] : JObj) "features").bind JValue.asArr? = none →
        GetAlerts (stubFetch []) "CA"
          = ("No alerts found or invalid response format.", none))
    ∧ GetAlerts (stubFetch [("features", JValue.arr [])]) "CA"
      = ("No active alerts for this state.", none) := by
  refine ⟨rfl, (getAlerts_missing_and_empty_features (stubFetch []) "CA" [] rfl).1, ?_⟩
  exact (getAlerts_missing_and_empty_features (stubFetch [("features", JValue.arr [])])
    "CA" [("features", JValue.arr [])] rfl).2 rfl

/-- C2 counterexample: with the points call answering HTTP 503, the
forecast handler does return status 500, but its body is
`"Error fetching forecast: API request failed with status: 503"` —
the handler discards `GetForecast`'s "Unable to fetch ..." text and
writes the wrapped error instead, so the body does not contain
"Unable to fetch". -/
theorem handleForecast_503_counterexample :
    HandleForecast fetch503 "GET" "37" "-122"
      = ⟨500, "Error fetching forecast: API request failed with status: 503\n"⟩
    ∧ strContains (HandleForecast fetch503 "GET" "37" "-122").body "Unable to fetch"
      = false := by
  constructor
  · rfl
  · decide

/-- C2 (amended): when the upstream points call returns HTTP 503, the
forecast handler responds with status 500 and a body containing
"Error fetching forecast: API request failed with status: 503". -/
theorem handleForecast_503_returns_500 (fetch : String → UpstreamResult)
    (latStr lonStr : String) (lat lon : Int) (decoded : Option JObj)
    (hlat : ParseFloat latStr = some lat) (hlon : ParseFloat lonStr = some lon)
    (hlatne : latStr ≠ "") (hlonne : lonStr ≠ "")
    (hfetch : fetch (pointsURL lat lon) = .response 503 decoded) :
    HandleForecast fetch "GET" latStr lonStr
      = httpError ("Error fetching forecast: "
          ++ "API request failed with status: 503") 500
    ∧ strContains (HandleForecast fetch "GET" latStr lonStr).body
        "Error fetching forecast: API request failed with status: 503" = true := by
  have hg : GetForecast fetch lat lon
      = ("Unable to fetch forecast data for this location.",
         some ("API request failed with status: " ++ toString (503 : Nat))) := by
    unfold GetForecast makeNWSRequest
    rw [hfetch]
    rfl
  have hs : ("API request failed with status: " ++ toString (503 : Nat) : String)
      = "API request failed with status: 503" := by decide
  have heval : HandleForecast fetch "GET" latStr lonStr
      = httpError ("Error fetching forecast: "
          ++ "API request failed with status: 503") 500 := by
    unfold HandleForecast
    simp [hlat, hlon, hg, hlatne, hlonne, hs]
  refine ⟨heval, ?_⟩
  rw [heval]
  exact strContains_of_eq
    ((httpError ("Error fetching forecast: "
      ++ "API request failed with status: 503") 500).body)
    "Error fetching forecast: " "API request failed with status: 503" "\n" rfl

/-- Witness for the amended C2 at a concrete 503-answering upstream. -/
theorem handleForecast_503_returns_500_witness :
    ParseFloat "37" = some 37 ∧ ParseFloat "-122" = some (-122)
    ∧ ("37" : String) ≠ "" ∧ ("-122" : String) ≠ ""
    ∧ fetch503 (pointsURL 37 (-122)) = UpstreamResult.response 503 none
    ∧ HandleForecast fetch503 "GET" "37" "-122"
      = httpError ("Error fetching forecast: "
          ++ "API request failed with status: 503") 500 := by
  refine ⟨by decide, by decide, by decide, by decide, rfl, ?_⟩
  exact (handleForecast_503_returns_500 fetch503 "37" "-122" 37 (-122) none
    (by decide) (by decide) (by decide) (by decide) rfl).1

/-- C3: each malformed-shape case in the two-stage forecast resolution
yields a nil error and its own distinct human-readable text: missing or
non-map `properties` in the points response, missing or non-string
forecast URL, missing or non-map `properties` in the forecast response,
and missing or non-list `periods`. -/
theorem getForecast_soft_failures (fetch : String → UpstreamResult)
    (latitude longitude : Int) (pointsData : JObj)
    (hp : fetch (pointsURL latitude longitude) = .response 200 (some pointsData)) :
    ((lookupJ pointsData "properties").bind JValue.asObj? = none →
      GetForecast fetch latitude longitude
        = ("Invalid response format from weather API.", none))
    ∧ (∀ properties,
        (lookupJ pointsData "properties").bind JValue.asObj? = some properties →
        (((lookupJ properties "forecast").bind JValue.asStr? = none →
          GetForecast fetch latitude longitude
            = ("Unable to retrieve forecast URL.", none))
        ∧ ∀ forecastURL forecastData,
            (lookupJ properties "forecast").bind JValue.asStr? = some forecastURL →
            fetch forecastURL = .response 200 (some forecastData) →
            (((lookupJ forecastData "properties").bind JValue.asObj? = none →
              GetForecast fetch latitude longitude
                = ("Invalid forecast data format.", none))
            ∧ ∀ forecastProps,
                (lookupJ forecastData "properties").bind JValue.asObj?
                  = some forecastProps →
                (lookupJ forecastProps "periods").bind JValue.asArr? = none →
                GetForecast fetch latitude longitude
                  = ("Invalid forecast periods data.", none))))
    ∧ (("Invalid response format from weather API." : String)
        ≠ "Unable to retrieve forecast URL."
      ∧ ("Invalid response format from weather API." : String)
        ≠ "Invalid forecast data format."
      ∧ ("Invalid response format from weather API." : String)
        ≠ "Invalid forecast periods data."
      ∧ ("Unable to retrieve forecast URL." : String)
        ≠ "Invalid forecast data format."
      ∧ ("Unable to retrieve forecast URL." : String)
        ≠ "Invalid forecast periods data."
      ∧ ("Invalid forecast data format." : String)
        ≠ "Invalid forecast periods data.") := by
  refine ⟨?_, ?_, by decide, by decide, by decide, by decide, by decide, by decide⟩
  · intro h
    unfold GetForecast makeNWSRequest
    rw [hp]
    simp [h]
  · intro properties hprops
    constructor
    · intro h
      unfold GetForecast makeNWSRequest
      rw [hp]
      simp [hprops, h]
    · intro forecastURL forecastData hurl hf
      constructor
      · intro h
        unfold GetForecast makeNWSRequest
        rw [hp]
        simp [hprops, hurl, hf, h]
      · intro forecastProps hfp h
        unfold GetForecast makeNWSRequest
        rw [hp]
        simp [hprops, hurl, hf, hfp, h]

/-- Witness for C3 at a points response whose `properties` key is
absent. -/
theorem getForecast_soft_failures_witness :
    stubFetch [] (pointsURL 37 (-122)) = UpstreamResult.response 200 (some [])
    ∧ (lookupJ ([] : JObj) "properties").bind JValue.asObj? = none
    ∧ GetForecast (stubFetch []) 37 (-122)
      = ("Invalid response format from weather API.", none) := by
  refine ⟨rfl, rfl, ?_⟩
  exact (getForecast_soft_failures (stubFetch []) 37 (-122) [] rfl).1 rfl

/-- C6: a feature whose `properties` omit (or mistype) `severity`
renders the line "Severity: Unknown"; in general every one of the five
alert fields that is missing or not a string is rendered as its
field-specific placeholder instead of failing. -/
theorem formatAlert_placeholders (feature props : JObj)
    (h : (lookupJ feature "properties").bind JValue.asObj? = some props) :
    ((lookupJ props "severity").bind JValue.asStr? = none →
      strContains (formatAlert feature) "Severity: Unknown" = true)
    ∧ formatAlert feature =
        "\nEvent: " ++ withDefault (strOf props "event") "Unknown"
        ++ "\nArea: " ++ withDefault (strOf props "areaDesc") "Unknown"
        ++ "\nSeverity: " ++ withDefault (strOf props "severity") "Unknown"
        ++ "\nDescription: "
        ++ withDefault (strOf props "description") "No description available"
        ++ "\nInstructions: "
        ++ withDefault (strOf props "instruction") "No specific instructions provided"
        ++ "\n"
    ∧ (∀ key dflt,
        (key, dflt) ∈ [("event", "Unknown"), ("areaDesc", "Unknown"),
          ("severity", "Unknown"), ("description", "No description available"),
          ("instruction", "No specific instructions provided")] →
        (lookupJ props key).bind JValue.asStr? = none →
        withDefault (strOf props key) dflt = dflt) := by
  refine ⟨?_, formatAlert_eq feature props h, ?_⟩
  · intro hsev
    have hsv : withDefault (strOf props "severity") "Unknown" = "Unknown" := by
      simp [strOf, hsev, withDefault]
    have lit2 : ∀ X : String,
        ("\nSeverity: " : String) ++ ("Unknown" ++ X)
          = "\n" ++ ("Severity: Unknown" ++ X) := by
      intro X
      rw [← String.append_assoc, ← String.append_assoc]
      exact congrArg (fun s => s ++ X) (by decide)
    refine strContains_of_eq (formatAlert feature)
      ("\nEvent: " ++ withDefault (strOf props "event") "Unknown"
        ++ "\nArea: " ++ withDefault (strOf props "areaDesc") "Unknown" ++ "\n")
      "Severity: Unknown"
      ("\nDescription: "
        ++ withDefault (strOf props "description") "No description available"
        ++ "\nInstructions: "
        ++ withDefault (strOf props "instruction") "No specific instructions provided"
        ++ "\n") ?_
    rw [formatAlert_eq feature props h, hsv]
    simp only [String.append_assoc, lit2]
  · intro key dflt _ hmiss
    simp [withDefault, strOf, hmiss]

/-- Witness for C6 at a feature whose `properties` object is empty
(so `severity` is absent). -/
theorem formatAlert_placeholders_witness :
    (lookupJ [("properties", JValue.obj [])] "properties").bind JValue.asObj?
      = some ([] : JObj)
    ∧ (lookupJ ([] : JObj) "severity").bind JValue.asStr? = none
    ∧ strContains (formatAlert [("properties", JValue.obj [])]) "Severity: Unknown"
      = true := by
  refine ⟨rfl, rfl, ?_⟩
  exact (formatAlert_placeholders [("properties", JValue.obj [])] [] rfl).1 rfl

/-- Substituting a field's value: an empty-string value and an absent
key give the same defaulted field text. -/
theorem withDefault_strOf_empty_absent (props1 props2 : JObj) (key k dflt : String)
    (he : lookupJ props1 key = some (JValue.str ""))
    (ha : lookupJ props2 key = none)
    (hrest : ∀ kk, kk ≠ key → lookupJ props1 kk = lookupJ props2 kk) :
    withDefault (strOf props1 k) dflt = withDefault (strOf props2 k) dflt := by
  by_cases hk : k = key
  · subst hk
    simp [strOf, he, ha, JValue.asStr?, withDefault]
  · unfold strOf
    rw [hrest k hk]

/-- C9: a feature whose field holds the empty string renders exactly
like a feature with that field absent (all other fields equal): the
placeholder replaces empty strings as well as missing values. -/
theorem formatAlert_empty_field_eq_absent (f1 f2 props1 props2 : JObj) (key : String)
    (h1 : (lookupJ f1 "properties").bind JValue.asObj? = some props1)
    (h2 : (lookupJ f2 "properties").bind JValue.asObj? = some props2)
    (he : lookupJ props1 key = some (JValue.str ""))
    (ha : lookupJ props2 key = none)
    (hrest : ∀ k, k ≠ key → lookupJ props1 k = lookupJ props2 k) :
    formatAlert f1 = formatAlert f2 := by
  rw [formatAlert_eq f1 props1 h1, formatAlert_eq f2 props2 h2,
    withDefault_strOf_empty_absent props1 props2 key "event" "Unknown" he ha hrest,
    withDefault_strOf_empty_absent props1 props2 key "areaDesc" "Unknown" he ha hrest,
    withDefault_strOf_empty_absent props1 props2 key "severity" "Unknown" he ha hrest,
    withDefault_strOf_empty_absent props1 props2 key "description"
      "No description available" he ha hrest,
    withDefault_strOf_empty_absent props1 props2 key "instruction"
      "No specific instructions provided" he ha hrest]

/-- Witness for C9: `severity` set to `""` versus `severity` absent. -/
theorem formatAlert_empty_field_eq_absent_witness :
    lookupJ [("severity", JValue.str "")] "severity" = some (JValue.str "")
    ∧ lookupJ ([] : JObj) "severity" = none
    ∧ (∀ k, k ≠ "severity" →
        lookupJ [("severity", JValue.str "")] k = lookupJ ([] : JObj) k)
    ∧ formatAlert [("properties", JValue.obj [("severity", JValue.str "")])]
      = formatAlert [("properties", JValue.obj [])] := by
  have hrest : ∀ k, k ≠ "severity" →
      lookupJ [("severity", JValue.str "")] k = lookupJ ([] : JObj) k := by
    intro k hk
    have hne : ("severity" : String) ≠ k := fun hcontra => hk hcontra.symm
    simp [lookupJ, hne]
  refine ⟨rfl, rfl, hrest, ?_⟩
  exact formatAlert_empty_field_eq_absent
    [("properties", JValue.obj [("severity", JValue.str "")])]
    [("properties", JValue.obj [])]
    [("severity", JValue.str "")] [] "severity" rfl rfl rfl rfl hrest

/-- C7: given a successfully decoded geocoding response, `GeocodeCity`
fails exactly on an empty result list (with an error containing
"no results found" and the query) or on an unparsable coordinate of the
first candidate; on success it returns the parsed coordinates of the
first candidate only. -/
theorem geocodeCity_first_candidate (city state : String)
    (results : List GeocodingResult) :
    (results = [] →
      GeocodeCity city state results
        = .error ("no results found for location: " ++ geoQuery city state)
      ∧ strContains ("no results found for location: " ++ geoQuery city state)
          "no results found" = true
      ∧ strContains ("no results found for location: " ++ geoQuery city state)
          (geoQuery city state) = true)
    ∧ ∀ r rest, results = r :: rest →
        (((ParseFloat r.Lat = none ∨ ParseFloat r.Lon = none) →
          ∃ e, GeocodeCity city state results = .error e)
        ∧ ∀ la lo, ParseFloat r.Lat = some la → ParseFloat r.Lon = some lo →
            GeocodeCity city state results = .ok (la, lo)) := by
  constructor
  · rintro rfl
    refine ⟨rfl, ?_, ?_⟩
    · refine strContains_of_eq _ "" "no results found"
        (" for location: " ++ geoQuery city state) ?_
      rw [← String.append_assoc]
      exact congrArg (fun s => s ++ geoQuery city state) (by decide)
    · refine strContains_of_eq _ "no results found for location: "
        (geoQuery city state) "" ?_
      rw [String.append_empty]
  · rintro r rest rfl
    constructor
    · intro hor
      cases hLat : ParseFloat r.Lat with
      | none =>
        exact ⟨"strconv.ParseFloat: parsing " ++ r.Lat ++ ": invalid syntax",
          by simp [GeocodeCity, hLat]⟩
      | some la =>
        cases hLon : ParseFloat r.Lon with
        | none =>
          exact ⟨"strconv.ParseFloat: parsing " ++ r.Lon ++ ": invalid syntax",
            by simp [GeocodeCity, hLat, hLon]⟩
        | some lo =>
          rcases hor with hbad | hbad
          · rw [hLat] at hbad
            cases hbad
          · rw [hLon] at hbad
            cases hbad
    · intro la lo hla hlo
      simp [GeocodeCity, hla, hlo]

/-- Witness for C7: the empty result list and a parsable singleton. -/
theorem geocodeCity_first_candidate_witness :
    GeocodeCity "San Francisco" "CA" []
      = .error ("no results found for location: " ++ geoQuery "San Francisco" "CA")
    ∧ GeocodeCity "San Francisco" "CA" [⟨"37", "-122"⟩] = .ok (37, -122) := by
  constructor
  · exact ((geocodeCity_first_candidate "San Francisco" "CA" []).1 rfl).1
  · exact ((geocodeCity_first_candidate "San Francisco" "CA"
      [⟨"37", "-122"⟩]).2 ⟨"37", "-122"⟩ [] rfl).2 37 (-122) (by decide) (by decide)

/-- Unfolded rendering of one forecast period block. -/
theorem formatPeriod_def (period : JObj) :
    formatPeriod period =
      "\n" ++ strOf period "name" ++ ":\nTemperature: "
        ++ toString (numOf period "temperature") ++ "°"
        ++ strOf period "temperatureUnit" ++ "\nWind: " ++ strOf period "windSpeed"
        ++ " " ++ strOf period "windDirection" ++ "\nForecast: "
        ++ strOf period "detailedForecast" ++ "\n" := rfl

/-- Over a list of object-shaped periods, the render-or-skip loop of
`GetForecast` renders every element in order. -/
theorem filterMap_obj_map (periodObjs : List JObj) :
    (periodObjs.map JValue.obj).filterMap
      (fun p => (JValue.asObj? p).map formatPeriod)
      = periodObjs.map formatPeriod := by
  induction periodObjs with
  | nil => rfl
  | cons o os ih =>
    show (JValue.obj o :: os.map JValue.obj).filterMap
        (fun p => (JValue.asObj? p).map formatPeriod)
      = formatPeriod o :: os.map formatPeriod
    rw [List.filterMap_cons]
    show formatPeriod o :: (os.map JValue.obj).filterMap
        (fun p => (JValue.asObj? p).map formatPeriod)
      = formatPeriod o :: os.map formatPeriod
    rw [ih]

/-- C5: when both upstream stages succeed and every period is a
record, `GetForecast` renders one block per period in upstream order,
joined by `"\n---\n"`; each block carries the period's name,
temperature with unit, wind speed and direction, and narrative, and a
missing temperature or narrative degrades to the zero value `0` or the
empty string instead of failing. -/
theorem getForecast_period_blocks (fetch : String → UpstreamResult)
    (latitude longitude : Int)
    (pointsData properties forecastData forecastProps : JObj)
    (forecastURL : String) (periodObjs : List JObj)
    (hp : fetch (pointsURL latitude longitude) = .response 200 (some pointsData))
    (h1 : lookupJ pointsData "properties" = some (JValue.obj properties))
    (h2 : lookupJ properties "forecast" = some (JValue.str forecastURL))
    (hf : fetch forecastURL = .response 200 (some forecastData))
    (h3 : lookupJ forecastData "properties" = some (JValue.obj forecastProps))
    (h4 : lookupJ forecastProps "periods"
      = some (JValue.arr (periodObjs.map JValue.obj))) :
    GetForecast fetch latitude longitude
      = (String.intercalate "\n---\n" (periodObjs.map formatPeriod), none)
    ∧ (∀ period : JObj, formatPeriod period =
        "\n" ++ strOf period "name" ++ ":\nTemperature: "
          ++ toString (numOf period "temperature") ++ "°"
          ++ strOf period "temperatureUnit" ++ "\nWind: "
          ++ strOf period "windSpeed" ++ " " ++ strOf period "windDirection"
          ++ "\nForecast: " ++ strOf period "detailedForecast" ++ "\n")
    ∧ (∀ period : JObj, (lookupJ period "temperature").bind JValue.asNum? = none →
        ∃ l r, formatPeriod period = l ++ "Temperature: 0°" ++ r)
    ∧ (∀ period : JObj, (lookupJ period "detailedForecast").bind JValue.asStr? = none →
        ∃ l, formatPeriod period = l ++ "\nForecast: \n") := by
  refine ⟨?_, fun period => formatPeriod_def period, ?_, ?_⟩
  · have E1 : (lookupJ pointsData "properties").bind JValue.asObj? = some properties := by
      rw [h1]; rfl
    have E2 : (lookupJ properties "forecast").bind JValue.asStr? = some forecastURL := by
      rw [h2]; rfl
    have E3 : (lookupJ forecastData "properties").bind JValue.asObj? = some forecastProps := by
      rw [h3]; rfl
    have E4 : (lookupJ forecastProps "periods").bind JValue.asArr?
        = some (periodObjs.map JValue.obj) := by
      rw [h4]; rfl
    unfold GetForecast makeNWSRequest
    rw [hp]
    simp [E1, E2, E3, E4, hf, filterMap_obj_map, -List.filterMap_map]
  · intro period hmiss
    have h0 : numOf period "temperature" = 0 := by simp [numOf, hmiss]
    refine ⟨"\n" ++ strOf period "name" ++ ":\n",
      strOf period "temperatureUnit" ++ "\nWind: " ++ strOf period "windSpeed"
        ++ " " ++ strOf period "windDirection" ++ "\nForecast: "
        ++ strOf period "detailedForecast" ++ "\n", ?_⟩
    have lit3 : ∀ X : String,
        (":\nTemperature: " : String) ++ (toString (0 : Int) ++ ("°" ++ X))
          = ":\n" ++ ("Temperature: 0°" ++ X) := by
      intro X
      rw [← String.append_assoc, ← String.append_assoc, ← String.append_assoc]
      exact congrArg (fun s => s ++ X) (by decide)
    rw [formatPeriod_def, h0]
    simp only [String.append_assoc, lit3]
  · intro period hmiss
    have hdf : strOf period "detailedForecast" = "" := by simp [strOf, hmiss]
    refine ⟨"\n" ++ strOf period "name" ++ ":\nTemperature: "
      ++ toString (numOf period "temperature") ++ "°"
      ++ strOf period "temperatureUnit" ++ "\nWind: " ++ strOf period "windSpeed"
      ++ " " ++ strOf period "windDirection", ?_⟩
    rw [formatPeriod_def, hdf, String.append_empty, String.append_assoc]
    exact congrArg
      (fun s => "\n" ++ strOf period "name" ++ ":\nTemperature: "
        ++ toString (numOf period "temperature") ++ "°"
        ++ strOf period "temperatureUnit" ++ "\nWind: " ++ strOf period "windSpeed"
        ++ " " ++ strOf period "windDirection" ++ s) (by decide)

/-- Witness for C5: one upstream document serving both stages, with a
single empty period record. -/
theorem getForecast_period_blocks_witness :
    stubFetch [("properties", JValue.obj [("forecast", JValue.str "u2"),
        ("periods", JValue.arr [JValue.obj []])])] (pointsURL 37 (-122))
      = UpstreamResult.response 200 (some [("properties",
          JValue.obj [("forecast", JValue.str "u2"),
            ("periods", JValue.arr [JValue.obj []])])])
    ∧ lookupJ [("properties", JValue.obj [("forecast", JValue.str "u2"),
        ("periods", JValue.arr [JValue.obj []])])] "properties"
      = some (JValue.obj [("forecast", JValue.str "u2"),
          ("periods", JValue.arr [JValue.obj []])])
    ∧ lookupJ [("forecast", JValue.str "u2"),
        ("periods", JValue.arr [JValue.obj []])] "forecast"
      = some (JValue.str "u2")
    ∧ lookupJ [("forecast", JValue.str "u2"),
        ("periods", JValue.arr [JValue.obj []])] "periods"
      = some (JValue.arr (([([] : JObj)]).map JValue.obj))
    ∧ GetForecast (stubFetch [("properties", JValue.obj [("forecast", JValue.str "u2"),
        ("periods", JValue.arr [JValue.obj []])])]) 37 (-122)
      = (String.intercalate "\n---\n" (([([] : JObj)]).map formatPeriod), none) := by
  refine ⟨rfl, rfl, rfl, rfl, ?_⟩
  exact (getForecast_period_blocks
    (stubFetch [("properties", JValue.obj [("forecast", JValue.str "u2"),
      ("periods", JValue.arr [JValue.obj []])])]) 37 (-122)
    [("properties", JValue.obj [("forecast", JValue.str "u2"),
      ("periods", JValue.arr [JValue.obj []])])]
    [("forecast", JValue.str "u2"), ("periods", JValue.arr [JValue.obj []])]
    [("properties", JValue.obj [("forecast", JValue.str "u2"),
      ("periods", JValue.arr [JValue.obj []])])]
    [("forecast", JValue.str "u2"), ("periods", JValue.arr [JValue.obj []])]
    "u2" [([] : JObj)] rfl rfl rfl rfl rfl rfl).1
